import Mathlib

/-!
Verification of the Sentinel backend core (sentinel_backend.py): the trend
cache & fetcher (`get_google_trends`) and the threat scorer
(`calculate_threat_score`).

Modelling conventions:
* Python floats are modelled as rationals (ℚ); `int(x)` is truncation toward
  zero (`truncInt`).
* A pandas DataFrame is modelled as a date index, a column-name list and a
  row-major value matrix (`DataFrame`); `df[:-7]` / `df[-7:]` become
  `List.take` / `List.drop` with truncated subtraction, which matches Python
  negative-index slicing; `df[keywords]` raising `KeyError` for a missing
  column, and any other malformed-frame failure, are modelled by `Option`
  (`none` = the exception caught by the `try/except` blocks).
* The module-level dict `trends_cache` is threaded explicitly as an
  association list; `datetime.now()` is an explicit `now : ℚ` parameter
  (measured in minutes, so `CACHE_DURATION = 10`); the external pytrends
  provider is an explicit `ProviderResult` parameter (`err` = any raised
  exception, `ok df` = the frame returned by `interest_over_time`).
* `get_google_trends` returns, besides the Python return tuple, the updated
  cache and a `called` flag recording whether the external provider was
  consulted on this invocation.
-/

/-- Disease configuration: one entry of `DISEASE_KEYWORDS`. -/
structure DiseaseConfig where
  keywords : List String
  baseline_factor : ℚ
deriving DecidableEq, Repr

/-- The `DISEASE_KEYWORDS` table of sentinel_backend.py. -/
def DISEASE_KEYWORDS : List (String × DiseaseConfig) :=
  [("flu", ⟨["flu symptoms", "fever and cough", "influenza treatment", "Tamifu"], 1.2⟩),
   ("dengue", ⟨["dengue symptoms", "mosquito bite fever", "platelet count low", "dengue treatment"], 1.5⟩),
   ("covid", ⟨["covid symptoms", "loss of smell", "covid test near me", "Paxlovid"], 1.3⟩)]

/-- A pandas DataFrame as returned by `interest_over_time`: a date index
(already formatted as the strings that `strftime` would yield), column names,
and a row-major matrix of values (row `i` holds the value of column `j` at
position `j`). -/
structure DataFrame where
  index : List String
  cols : List String
  rows : List (List ℚ)
deriving DecidableEq, Repr

/-- pandas `df.empty`: true when either axis has length zero. -/
def DataFrame.empty (df : DataFrame) : Bool :=
  df.rows.isEmpty || df.cols.isEmpty

/-- Position of a column label in the column list (first occurrence). -/
def colIndex (cols : List String) (k : String) : Option Nat :=
  match cols with
  | [] => none
  | c :: cs => if c = k then some 0 else (colIndex cs k).map (· + 1)

/-- `df[k].tolist()`: the column of values for label `k`, one per row.
Only used after membership of `k` in `df.cols` has been checked. -/
def colValues (df : DataFrame) (k : String) : List ℚ :=
  match colIndex df.cols k with
  | some i => df.rows.map (fun r => (r.get? i).getD 0)
  | none => []

/-- One element of `chart_data['datasets']`. -/
structure ChartDataset where
  label : String
  data : List ℚ
deriving DecidableEq, Repr

/-- The `chart_data` dictionary built for Chart.js. -/
structure ChartData where
  labels : List String
  datasets : List ChartDataset
deriving DecidableEq, Repr

/-- Lines 88-99: labels are the formatted index; one dataset per configured
keyword that is present among the result columns, in configured order,
skipping the absent ones. -/
def buildChart (df : DataFrame) (cfg : DiseaseConfig) : ChartData :=
  { labels := df.index
    datasets := cfg.keywords.filterMap (fun k =>
      if df.cols.contains k then some ⟨k, colValues df k⟩ else none) }

/-- One value of the `trends_cache` dict. -/
structure CacheEntry where
  timestamp : ℚ
  data : Option DataFrame
  chart_data : Option ChartData
deriving DecidableEq, Repr

/-- The `trends_cache` dict, as an association list keyed by the cache key. -/
abbrev Cache := List (String × CacheEntry)

/-- Python dict assignment `trends_cache[key] = entry`. -/
def cacheInsert (c : Cache) (key : String) (e : CacheEntry) : Cache :=
  (key, e) :: c.filter (fun p => p.1 != key)

/-- Line 43: `f"{geo}_{'_'.join(disease_config['keywords'])}"`. -/
def cacheKey (cfg : DiseaseConfig) (geo : String) : String :=
  geo ++ "_" ++ String.intercalate "_" cfg.keywords

/-- Line 16: cache TTL, in minutes. -/
def CACHE_DURATION : ℚ := 10

/-- Outcome of the external pytrends interaction inside the `try` block:
either some exception was raised, or `interest_over_time` returned a frame. -/
inductive ProviderResult where
  | err : ProviderResult
  | ok : DataFrame → ProviderResult
deriving DecidableEq, Repr

/-- Result of one `get_google_trends` call: the returned
`(trends_df, chart_data)` pair, the cache store after the call, and whether
the external provider was consulted. -/
structure FetchOut where
  data : Option DataFrame
  chart_data : Option ChartData
  cache : Cache
  called : Bool
deriving DecidableEq, Repr

/-- Lines 56-116: the live-fetch path (cache miss or stale entry). -/
def liveFetch (cfg : DiseaseConfig) (geo : String) (now : ℚ) (cache : Cache)
    (provider : ProviderResult) : FetchOut :=
  match provider with
  | .err => ⟨none, none, cache, true⟩
  | .ok df =>
    if df.empty then
      ⟨none, none, cacheInsert cache (cacheKey cfg geo) ⟨now, none, none⟩, true⟩
    else
      let chart := buildChart df cfg
      ⟨some df, some chart,
        cacheInsert cache (cacheKey cfg geo) ⟨now, some df, some chart⟩, true⟩

/-- Lines 35-116: `get_google_trends(disease_config, geo)`, with the cache,
the clock and the provider outcome made explicit. -/
def get_google_trends (cfg : DiseaseConfig) (geo : String) (now : ℚ)
    (cache : Cache) (provider : ProviderResult) : FetchOut :=
  match cache.lookup (cacheKey cfg geo) with
  | some entry =>
    if now - entry.timestamp < CACHE_DURATION then
      ⟨entry.data, entry.chart_data, cache, false⟩
    else
      liveFetch cfg geo now cache provider
  | none => liveFetch cfg geo now cache provider

/-- Per-row part of `df[keywords].sum(axis=1)`: the sum of this row's values
at the selected columns; `none` models the `KeyError` when a keyword is
missing from the columns (or the row is malformed). -/
def rowKwSum (cols : List String) (row : List ℚ) : List String → Option ℚ
  | [] => some 0
  | k :: ks =>
    match (colIndex cols k).bind row.get?, rowKwSum cols row ks with
    | some v, some s => some (v + s)
    | _, _ => none

/-- `df[keywords].sum(axis=1)` over a list of rows: the per-row keyword sums,
`none` if any row selection fails. -/
def kwSums (cols : List String) (kws : List String) : List (List ℚ) → Option (List ℚ)
  | [] => some []
  | r :: rs =>
    match rowKwSum cols r kws, kwSums cols kws rs with
    | some s, some ss => some (s :: ss)
    | _, _ => none

/-- pandas `.mean()` of a list of values. -/
def meanOf (l : List ℚ) : ℚ := l.sum / l.length

/-- Line 138: `baseline_df = trends_df[:-7]` (all rows but the last 7). -/
def baselineRows (df : DataFrame) : List (List ℚ) :=
  df.rows.take (df.rows.length - 7)

/-- Line 147: `current_df = trends_df[-7:]` (the last 7 rows, or all of them
when there are at most 7). -/
def currentRows (df : DataFrame) : List (List ℚ) :=
  df.rows.drop (df.rows.length - 7)

/-- Lines 139-144: `baseline_avg`, 10 when the baseline slice is empty,
otherwise the mean of the per-row keyword sums over the baseline rows. -/
def baselineAvg (df : DataFrame) (cfg : DiseaseConfig) : Option ℚ :=
  if (baselineRows df).isEmpty then some 10
  else (kwSums df.cols cfg.keywords (baselineRows df)).map meanOf

/-- Line 148: `current_avg`, the mean of the per-row keyword sums over the
current rows. -/
def currentAvg (df : DataFrame) (cfg : DiseaseConfig) : Option ℚ :=
  (kwSums df.cols cfg.keywords (currentRows df)).map meanOf

/-- Python `int()` on a float: truncation toward zero. -/
def truncInt (q : ℚ) : ℤ :=
  if q < 0 then -⌊-q⌋ else ⌊q⌋

/-- Lines 163-177: map the truncated composite score to a level and an
action string. -/
def scoreTriple (score : ℤ) : ℤ × String × String :=
  if score > 80 then
    (score, "High", "ACTION: High threat detected. Recommend immediate public advisory and resource mobilization to hospitals.")
  else if score > 50 then
    (score, "Elevated", "ALERT: Elevated search interest. Recommend alerting clinics and launching a preventative awareness campaign.")
  else if score > 25 then
    (score, "Guarded", "WATCH: Search interest is above baseline. Monitor data daily and check pharmacy supplies.")
  else
    (score, "Low", "INFO: Normal background chatter. No immediate action required.")

/-- Lines 129-181: `calculate_threat_score(trends_df, social_score,
disease_config)`. The `try/except` block is modelled by the `Option` results
of `baselineAvg`/`currentAvg`: any failure inside the arithmetic collapses to
the error triple of line 181. -/
def calculate_threat_score (trends_df : Option DataFrame) (social_score : ℚ)
    (cfg : DiseaseConfig) : ℤ × String × String :=
  match trends_df with
  | none => (0, "Low", "No trend data available for calculation.")
  | some df =>
    if df.empty then (0, "Low", "No trend data available for calculation.")
    else
      match baselineAvg df cfg, currentAvg df cfg with
      | some baseline_avg, some current_avg =>
        let trend_score : ℚ :=
          if baseline_avg > 0 then
            max 0 (((current_avg - baseline_avg) / baseline_avg) * 100)
          else
            current_avg * 2
        let composite_score : ℚ := trend_score * 0.7 + social_score * 0.3
        scoreTriple (truncInt composite_score)
      | _, _ => (0, "Low", "Error in calculation logic.")

/-! ### Concrete instances used by witnesses and counterexamples -/

/-- A one-keyword configuration. -/
def cfgK : DiseaseConfig := ⟨["k"], 1⟩

/-- A 30-row one-column series: 23 baseline rows of value 100 and 7 current
rows of value 150 (per-row keyword-sum averages 100 and 150). -/
def dfC1 : DataFrame :=
  ⟨List.replicate 30 "d", ["k"],
   List.replicate 23 [(100 : ℚ)] ++ List.replicate 7 [(150 : ℚ)]⟩

/-- A one-row one-column series with value 10: its trend component is 0. -/
def dfFlat : DataFrame := ⟨["d"], ["k"], [[10]]⟩

/-- A one-row series whose only column is not a configured keyword. -/
def dfBad : DataFrame := ⟨["d"], ["other"], [[5]]⟩

/-- A well-formed one-row provider result for the keyword `k`. -/
def dfEx : DataFrame := ⟨["2025-01-01"], ["k"], [[5]]⟩

/-- A cache holding one entry, recorded at time 0 with a `None` outcome. -/
def cacheEx : Cache := [(cacheKey cfgK "IN", ⟨0, none, none⟩)]

/-! ### Helper lemmas -/

/-- The level/action selection leaves the score component unchanged. -/
theorem scoreTriple_fst (s : ℤ) : (scoreTriple s).1 = s := by
  unfold scoreTriple
  split_ifs <;> rfl

/-- Truncation toward zero preserves non-negativity. -/
theorem truncInt_nonneg (q : ℚ) (h : 0 ≤ q) : 0 ≤ truncInt q := by
  unfold truncInt
  rw [if_neg (not_lt.mpr h)]
  exact Int.le_floor.mpr (by exact_mod_cast h)

/-- A column index is found exactly when the label occurs in the columns. -/
theorem colIndex_isSome (cols : List String) (k : String)
    (h : cols.contains k = true) : ∃ i, colIndex cols k = some i := by
  induction cols with
  | nil => simp at h
  | cons c cs ih =>
    by_cases hc : c = k
    · exact ⟨0, by simp [colIndex, hc]⟩
    · have h' : cs.contains k = true := by
        simp only [List.contains_cons, Bool.or_eq_true, beq_iff_eq] at h
        rcases h with h | h
        · exact absurd h.symm hc
        · exact h
      obtain ⟨i, hi⟩ := ih h'
      exact ⟨i + 1, by simp [colIndex, hc, hi]⟩

/-- A label absent from the columns has no column index. -/
theorem colIndex_eq_none (cols : List String) (k : String)
    (h : cols.contains k = false) : colIndex cols k = none := by
  induction cols with
  | nil => rfl
  | cons c cs ih =>
    simp only [List.contains_cons, Bool.or_eq_false_iff, beq_eq_false_iff_ne] at h
    have hne : ¬c = k := fun hc => h.1 hc.symm
    simp [colIndex, hne, ih h.2]

/-- A present column yields one value per row. -/
theorem colValues_length (df : DataFrame) (k : String)
    (h : df.cols.contains k = true) : (colValues df k).length = df.rows.length := by
  obtain ⟨i, hi⟩ := colIndex_isSome df.cols k h
  simp [colValues, hi]

/-- A row selection fails when one of the selected keywords is missing. -/
theorem rowKwSum_none (cols : List String) (row : List ℚ) (kws : List String)
    (k : String) (hk : k ∈ kws) (hmiss : colIndex cols k = none) :
    rowKwSum cols row kws = none := by
  induction kws with
  | nil => simp at hk
  | cons a ks ih =>
    rcases List.mem_cons.mp hk with rfl | hmem
    · simp [rowKwSum, hmiss]
    · rw [rowKwSum, ih hmem]
      rcases (colIndex cols a).bind row.get? with _ | v <;> rfl

/-- The per-row sums fail as soon as one row selection fails. -/
theorem kwSums_none (cols : List String) (kws : List String) (rs : List (List ℚ))
    (r : List ℚ) (hr : r ∈ rs) (hnone : rowKwSum cols r kws = none) :
    kwSums cols kws rs = none := by
  induction rs with
  | nil => simp at hr
  | cons a as ih =>
    rcases List.mem_cons.mp hr with rfl | hmem
    · simp [kwSums, hnone]
    · rw [kwSums, ih hmem]
      rcases rowKwSum cols a kws with _ | s <;> rfl

/-- A successful row selection over non-negative values sums to a
non-negative value. -/
theorem rowKwSum_nonneg (cols : List String) (row : List ℚ) (kws : List String)
    (hrow : ∀ x ∈ row, 0 ≤ x) (s : ℚ) (hs : rowKwSum cols row kws = some s) :
    0 ≤ s := by
  induction kws generalizing s with
  | nil =>
    simp only [rowKwSum, Option.some.injEq] at hs
    exact hs ▸ le_rfl

  | cons a ks ih =>
    rw [rowKwSum] at hs
    rcases hv : (colIndex cols a).bind row.get? with _ | v <;> rw [hv] at hs
    · exact absurd hs (by simp)
    · rcases hrec : rowKwSum cols row ks with _ | s' <;> rw [hrec] at hs
      · exact absurd hs (by simp)
      · obtain ⟨i, _, hget⟩ := Option.bind_eq_some.mp hv
        have hvmem : v ∈ row := List.get?_mem hget
        have := hrow v hvmem
        have := ih s' hrec
        simp only [Option.some.injEq] at hs
        subst hs
        positivity

/-- All per-row sums over non-negative values are non-negative. -/
theorem kwSums_nonneg (cols : List String) (kws : List String) (rs : List (List ℚ))
    (hrs : ∀ r ∈ rs, ∀ x ∈ r, 0 ≤ x) (l : List ℚ) (hl : kwSums cols kws rs = some l) :
    ∀ s ∈ l, 0 ≤ s := by
  induction rs generalizing l with
  | nil =>
    simp only [kwSums, Option.some.injEq] at hl
    subst hl
    simp
  | cons a as ih =>
    rw [kwSums] at hl
    rcases ha : rowKwSum cols a kws with _ | s <;> rw [ha] at hl
    · exact absurd hl (by simp)
    · rcases has : kwSums cols kws as with _ | ss <;> rw [has] at hl
      · exact absurd hl (by simp)
      · simp only [Option.some.injEq] at hl
        subst hl
        intro x hx
        rcases List.mem_cons.mp hx with rfl | hmem
        · exact rowKwSum_nonneg cols a kws (hrs a (List.mem_cons_self a as)) x ha
        · exact ih (fun r hr => hrs r (List.mem_cons_of_mem a hr)) ss has x hmem

/-- The mean of a list of non-negative values is non-negative. -/
theorem meanOf_nonneg (l : List ℚ) (h : ∀ s ∈ l, 0 ≤ s) : 0 ≤ meanOf l := by
  unfold meanOf
  exact div_nonneg (List.sum_nonneg h) (by positivity)

/-- A computed current-window average over a non-negative series is
non-negative. -/
theorem currentAvg_nonneg (df : DataFrame) (cfg : DiseaseConfig)
    (hrows : ∀ r ∈ df.rows, ∀ x ∈ r, 0 ≤ x) (c : ℚ)
    (hc : currentAvg df cfg = some c) : 0 ≤ c := by
  unfold currentAvg at hc
  rcases hs : kwSums df.cols cfg.keywords (currentRows df) with _ | l <;> rw [hs] at hc
  · exact absurd hc (by simp)
  · simp only [Option.map_some', Option.some.injEq] at hc
    subst hc
    refine meanOf_nonneg l (kwSums_nonneg df.cols cfg.keywords (currentRows df) ?_ l hs)
    intro r hr
    exact hrows r (List.drop_subset _ _ hr)

/-- When one of the two window averages fails to compute, the scorer lands in
the except-branch of line 181. -/
theorem calc_error_of_avg_none (df : DataFrame) (aux : ℚ) (cfg : DiseaseConfig)
    (hne : df.empty = false)
    (herr : baselineAvg df cfg = none ∨ currentAvg df cfg = none) :
    calculate_threat_score (some df) aux cfg = (0, "Low", "Error in calculation logic.") := by
  rw [calculate_threat_score, hne]
  rcases hb : baselineAvg df cfg with _ | b <;> rcases hc : currentAvg df cfg with _ | c <;>
    simp [hb, hc] <;> rcases herr with h | h <;> simp [hb, hc] at h

/-- A missing configured keyword makes the current-window average fail. -/
theorem currentAvg_none_of_missing (df : DataFrame) (cfg : DiseaseConfig) (k : String)
    (hk : k ∈ cfg.keywords) (hmiss : df.cols.contains k = false)
    (hrows : df.rows.isEmpty = false) : currentAvg df cfg = none := by
  have hnil : df.rows ≠ [] := by
    intro h
    rw [h] at hrows
    simp at hrows
  have hlen : 0 < df.rows.length := List.length_pos.mpr hnil
  have hcur : 0 < (currentRows df).length := by
    unfold currentRows
    rw [List.length_drop]
    omega
  rcases hcr : currentRows df with _ | ⟨r, rest⟩
  · rw [hcr] at hcur; simp at hcur
  · have hrow : rowKwSum df.cols r cfg.keywords = none :=
      rowKwSum_none df.cols r cfg.keywords k hk (colIndex_eq_none df.cols k hmiss)
    unfold currentAvg
    rw [hcr, kwSums_none df.cols cfg.keywords (r :: rest) r (List.mem_cons_self r rest) hrow]
    rfl

/-- Mapping the label over the dataset construction of lines 94-99 recovers
the filter over present keywords (stated for any predicate and column map). -/
theorem filterMap_if_label (p : String → Bool) (g : String → List ℚ) (ks : List String) :
    (ks.filterMap (fun k =>
        if p k then some (ChartDataset.mk k (g k)) else none)).map
      ChartDataset.label = ks.filter p := by
  induction ks with
  | nil => rfl
  | cons a ks ih =>
    rw [List.filterMap_cons, List.filter_cons]
    cases h : p a
    · simp [h, ih]
    · simp [h, ih]

/-- The chart datasets carry exactly the configured keywords that are present
among the result columns, in configured order. -/
theorem buildChart_labels (df : DataFrame) (cfg : DiseaseConfig) :
    ((buildChart df cfg).datasets).map ChartDataset.label
      = cfg.keywords.filter (fun k => df.cols.contains k) :=
  filterMap_if_label (fun k => df.cols.contains k) (fun k => colValues df k) cfg.keywords

/-- Membership in the dataset construction of lines 94-99: every dataset is
labelled by a kept keyword and holds that keyword's column of values. -/
theorem mem_filterMap_if (p : String → Bool) (g : String → List ℚ) (ks : List String)
    (ds : ChartDataset) (hds : ds ∈ ks.filterMap (fun k =>
      if p k then some (ChartDataset.mk k (g k)) else none)) :
    p ds.label = true ∧ ds.data = g ds.label := by
  rw [List.mem_filterMap] at hds
  obtain ⟨k, _, hk⟩ := hds
  cases h : p k
  · rw [h] at hk
    simp at hk
  · rw [h] at hk
    have hds' : ChartDataset.mk k (g k) = ds := by
      simpa using hk
    subst hds'
    exact ⟨h, rfl⟩

/-- Every chart dataset comes from one present configured keyword and holds
that column of values. -/
theorem mem_buildChart_datasets (df : DataFrame) (cfg : DiseaseConfig)
    (ds : ChartDataset) (hds : ds ∈ (buildChart df cfg).datasets) :
    df.cols.contains ds.label = true ∧ ds.data = colValues df ds.label :=
  mem_filterMap_if (fun k => df.cols.contains k) (fun k => colValues df k) cfg.keywords ds hds

/-- Consistency of a returned (series, chart) pair: a present series comes
with a chart whose datasets each hold one value per label and are labelled by
exactly the present configured keywords, in configured order. -/
def GoodPair (cfg : DiseaseConfig) (data : Option DataFrame)
    (chart : Option ChartData) : Prop :=
  ∀ df, data = some df → ∃ c, chart = some c ∧
    (∀ ds ∈ c.datasets, ds.data.length = c.labels.length) ∧
    c.datasets.map ChartDataset.label = cfg.keywords.filter (fun k => df.cols.contains k)

/-- The live-fetch path only returns consistent (series, chart) pairs. -/
theorem liveFetch_goodPair (cfg : DiseaseConfig) (geo : String) (now : ℚ)
    (cache : Cache) (provider : ProviderResult)
    (hprov : ∀ df, provider = .ok df → df.index.length = df.rows.length) :
    GoodPair cfg (liveFetch cfg geo now cache provider).data
      (liveFetch cfg geo now cache provider).chart_data := by
  rcases provider with _ | df
  · intro df h
    exact absurd h (by simp [liveFetch])
  · by_cases hemp : df.empty = true
    · intro df' h
      have hnone : (liveFetch cfg geo now cache (.ok df)).data = none := by
        simp [liveFetch, hemp]
      rw [hnone] at h
      exact absurd h (by simp)
    · have hout : (liveFetch cfg geo now cache (.ok df)).data = some df ∧
          (liveFetch cfg geo now cache (.ok df)).chart_data = some (buildChart df cfg) := by
        constructor
        · simp [liveFetch, hemp]
        · simp [liveFetch, hemp]
      intro df' h
      rw [hout.1] at h
      have hdf : df = df' := by
        injection h
      subst hdf
      refine ⟨buildChart df cfg, hout.2, ?_, buildChart_labels df cfg⟩
      intro ds hds
      obtain ⟨hmem, hdata⟩ := mem_buildChart_datasets df cfg ds hds
      rw [hdata, colValues_length df ds.label hmem]
      exact (hprov df rfl).symm

/-! ### Claims -/

/-- C3: the level mapping uses strict greater-than comparisons evaluated high
to low: a truncated composite score of exactly 80 yields Elevated (not High),
exactly 50 yields Guarded, and exactly 25 yields Low; scores above 80 yield
High, scores in (50, 80] yield Elevated, scores in (25, 50] yield Guarded and
scores at most 25 yield Low, each with its fixed action string. -/
theorem C3_level_mapping (s : ℤ) :
    (80 < s → scoreTriple s = (s, "High", "ACTION: High threat detected. Recommend immediate public advisory and resource mobilization to hospitals.")) ∧
    (50 < s → s ≤ 80 → scoreTriple s = (s, "Elevated", "ALERT: Elevated search interest. Recommend alerting clinics and launching a preventative awareness campaign.")) ∧
    (25 < s → s ≤ 50 → scoreTriple s = (s, "Guarded", "WATCH: Search interest is above baseline. Monitor data daily and check pharmacy supplies.")) ∧
    (s ≤ 25 → scoreTriple s = (s, "Low", "INFO: Normal background chatter. No immediate action required.")) ∧
    scoreTriple 80 = (80, "Elevated", "ALERT: Elevated search interest. Recommend alerting clinics and launching a preventative awareness campaign.") ∧
    scoreTriple 50 = (50, "Guarded", "WATCH: Search interest is above baseline. Monitor data daily and check pharmacy supplies.") ∧
    scoreTriple 25 = (25, "Low", "INFO: Normal background chatter. No immediate action required.") := by
  refine ⟨?_, ?_, ?_, ?_, by decide, by decide, by decide⟩ <;>
    (intros; unfold scoreTriple; split_ifs <;> first | rfl | omega)

/-- C3 witness: the mapping evaluated just above the High boundary. -/
theorem C3_witness :
    scoreTriple 81 = (81, "High", "ACTION: High threat detected. Recommend immediate public advisory and resource mobilization to hospitals.") :=
  (C3_level_mapping 81).1 (by decide)

/-- C4: a cache entry is honored (served verbatim, without consulting the
provider and without touching the cache) iff `now - timestamp < CACHE_DURATION`
with `CACHE_DURATION` = 10 minutes; otherwise (stale entry or no entry) the
call behaves exactly as the live-fetch path, which does consult the provider. -/
theorem C4_cache_ttl (cfg : DiseaseConfig) (geo : String) (now : ℚ)
    (cache : Cache) (provider : ProviderResult) :
    CACHE_DURATION = 10 ∧
    (∀ e, cache.lookup (cacheKey cfg geo) = some e →
      ((now - e.timestamp < CACHE_DURATION →
          get_google_trends cfg geo now cache provider = ⟨e.data, e.chart_data, cache, false⟩) ∧
       (¬ now - e.timestamp < CACHE_DURATION →
          get_google_trends cfg geo now cache provider = liveFetch cfg geo now cache provider))) ∧
    (cache.lookup (cacheKey cfg geo) = none →
      get_google_trends cfg geo now cache provider = liveFetch cfg geo now cache provider) ∧
    (liveFetch cfg geo now cache provider).called = true := by
  refine ⟨rfl, ?_, ?_, ?_⟩
  · intro e he
    constructor
    · intro hfresh
      rw [get_google_trends, he]
      dsimp only
      rw [if_pos hfresh]
    · intro hstale
      rw [get_google_trends, he]
      dsimp only
      rw [if_neg hstale]
  · intro hnone
    rw [get_google_trends, hnone]
  · rcases provider with _ | df
    · rfl
    · by_cases h : df.empty = true
      · simp [liveFetch, h]
      · simp [liveFetch, h]

/-- C4 witness: a fresh entry recorded at time 0 is served verbatim at time 5
even when the provider would fail. -/
theorem C4_witness :
    get_google_trends cfgK "IN" 5 cacheEx .err = ⟨none, none, cacheEx, false⟩ :=
  ((C4_cache_ttl cfgK "IN" 5 cacheEx .err).2.1 ⟨0, none, none⟩ rfl).1
    (by norm_num [CACHE_DURATION])

/-- C5: when the external provider call raises, `get_google_trends` leaves
the cache store exactly as it was and returns `(None, None)` (stated under
the hypothesis that no fresh entry short-circuits the call, i.e. the provider
is actually consulted). -/
theorem C5_error_no_cache_update (cfg : DiseaseConfig) (geo : String) (now : ℚ)
    (cache : Cache)
    (hmiss : ∀ e, cache.lookup (cacheKey cfg geo) = some e →
      ¬ now - e.timestamp < CACHE_DURATION) :
    get_google_trends cfg geo now cache .err = ⟨none, none, cache, true⟩ := by
  rw [get_google_trends]
  rcases he : cache.lookup (cacheKey cfg geo) with _ | e
  · rfl
  · dsimp only
    rw [if_neg (hmiss e he)]
    rfl

/-- C5 witness: a provider failure on an empty cache returns `(None, None)`
and leaves the cache empty. -/
theorem C5_witness :
    get_google_trends cfgK "IN" 0 [] .err = ⟨none, none, [], true⟩ :=
  C5_error_no_cache_update cfgK "IN" 0 []
    (by intro e he; simp at he)

/-- C6: for every auxiliary score and every disease config, the scorer maps a
`None` series, and likewise an empty series, to exactly
`(0, "Low", "No trend data available for calculation.")`. -/
theorem C6_no_data (aux : ℚ) (cfg : DiseaseConfig) :
    calculate_threat_score none aux cfg =
      (0, "Low", "No trend data available for calculation.") ∧
    ∀ df : DataFrame, df.empty = true →
      calculate_threat_score (some df) aux cfg =
        (0, "Low", "No trend data available for calculation.") := by
  refine ⟨rfl, ?_⟩
  intro df hemp
  rw [calculate_threat_score, hemp]
  rfl

/-- C6 witness: the empty frame at auxiliary score 20. -/
theorem C6_witness :
    calculate_threat_score (some ⟨[], [], []⟩) 20 cfgK =
      (0, "Low", "No trend data available for calculation.") :=
  (C6_no_data 20 cfgK).2 ⟨[], [], []⟩ rfl

/-- C7: the scorer splits the series into baseline = all rows except the last
7 and current = the last 7 rows (all rows when the series has at most 7);
`baseline_avg` is the fixed default 10 when the baseline slice is empty and
otherwise the average over baseline rows of the per-row keyword sums, and
`current_avg` is the same sum-then-average over the current rows. -/
theorem C7_window_split (df : DataFrame) (cfg : DiseaseConfig) :
    baselineRows df ++ currentRows df = df.rows ∧
    (currentRows df).length = min 7 df.rows.length ∧
    (df.rows.length ≤ 7 → baselineRows df = [] ∧ currentRows df = df.rows) ∧
    ((baselineRows df).isEmpty = true → baselineAvg df cfg = some 10) ∧
    ((baselineRows df).isEmpty = false →
      ∀ sums, kwSums df.cols cfg.keywords (baselineRows df) = some sums →
        baselineAvg df cfg = some (meanOf sums)) ∧
    (∀ sums, kwSums df.cols cfg.keywords (currentRows df) = some sums →
      currentAvg df cfg = some (meanOf sums)) := by
  refine ⟨List.take_append_drop _ _, ?_, ?_, ?_, ?_, ?_⟩
  · unfold currentRows
    rw [List.length_drop]
    omega
  · intro hlen
    have hz : df.rows.length - 7 = 0 := by omega
    unfold baselineRows currentRows
    rw [hz]
    constructor <;> simp
  · intro hemp
    rw [baselineAvg, if_pos hemp]
  · intro hne sums hsums
    rw [baselineAvg, if_neg (by rw [hne]; simp), hsums]
    rfl
  · intro sums hsums
    rw [currentAvg, hsums]
    rfl

/-- C7 witness: the split reassembles the 30-row example series. -/
theorem C7_witness : baselineRows dfC1 ++ currentRows dfC1 = dfC1.rows :=
  (C7_window_split dfC1 cfgK).1

/-- C8: any failure inside the scoring arithmetic (modelled by a window
average that does not compute, e.g. a malformed series) is caught and
converted to `(0, "Low", "Error in calculation logic.")`; the embedding is a
total function, so no exception reaches the caller. -/
theorem C8_error_caught (df : DataFrame) (aux : ℚ) (cfg : DiseaseConfig)
    (hne : df.empty = false)
    (herr : baselineAvg df cfg = none ∨ currentAvg df cfg = none) :
    calculate_threat_score (some df) aux cfg =
      (0, "Low", "Error in calculation logic.") :=
  calc_error_of_avg_none df aux cfg hne herr

/-- C8 witness: a series whose only column matches no configured keyword. -/
theorem C8_witness :
    calculate_threat_score (some dfBad) 20 cfgK =
      (0, "Low", "Error in calculation logic.") :=
  C8_error_caught dfBad 20 cfgK rfl
    (Or.inr (by
      have hok : ("other" = "k") = False := eq_false (by decide)
      norm_num [currentAvg, currentRows, kwSums, rowKwSum, colIndex, dfBad, cfgK, hok]))

/-- C1 counterexample: on the claim's own 30-row series (baseline per-row
keyword-sum average 100, current average 150, auxiliary score 20) the code
does NOT return the Elevated triple: the composite truncates to 41, and
41 > 50 is false, so the level is Guarded. -/
theorem C1_counterexample :
    calculate_threat_score (some dfC1) 20 cfgK ≠
      (41, "Elevated", "ALERT: Elevated search interest. Recommend alerting clinics and launching a preventative awareness campaign.") := by
  have h : calculate_threat_score (some dfC1) 20 cfgK =
      (41, "Guarded", "WATCH: Search interest is above baseline. Monitor data daily and check pharmacy supplies.") := by
    norm_num [calculate_threat_score, dfC1, cfgK, DataFrame.empty, baselineAvg, currentAvg,
      baselineRows, currentRows, kwSums, rowKwSum, colIndex, meanOf, truncInt, scoreTriple,
      List.replicate, List.take, List.drop]
  rw [h]
  decide

/-- C1 (amended): for any 30-row series whose baseline rows have a per-row
keyword-sum average of 100 and whose current rows average 150,
`calculate_threat_score` with auxiliary score 20 returns the triple
`(41, "Guarded", <guarded action string>)`: trendScore = 50, composite =
50 * 0.7 + 20 * 0.3 = 41 truncated to an integer, and 41 falls in the
Guarded band (25 < 41 ≤ 50). -/
theorem C1_scoring_example (df : DataFrame) (cfg : DiseaseConfig)
    (_hlen : df.rows.length = 30) (hne : df.empty = false)
    (hb : baselineAvg df cfg = some 100) (hc : currentAvg df cfg = some 150) :
    calculate_threat_score (some df) 20 cfg =
      (41, "Guarded", "WATCH: Search interest is above baseline. Monitor data daily and check pharmacy supplies.") := by
  rw [calculate_threat_score, hne]
  simp only [Bool.false_eq_true, if_false, hb, hc]
  norm_num [truncInt, scoreTriple]

/-- C1 witness: the concrete 30-row series realizes the amended claim. -/
theorem C1_witness :
    calculate_threat_score (some dfC1) 20 cfgK =
      (41, "Guarded", "WATCH: Search interest is above baseline. Monitor data daily and check pharmacy supplies.") :=
  C1_scoring_example dfC1 cfgK (by norm_num [dfC1]) rfl
    (by norm_num [baselineAvg, baselineRows, kwSums, rowKwSum, colIndex, meanOf, dfC1, cfgK,
      List.replicate, List.take])
    (by norm_num [currentAvg, currentRows, kwSums, rowKwSum, colIndex, meanOf, dfC1, cfgK,
      List.replicate, List.drop])

/-- C2 counterexample: with a negative auxiliary score the composite is
negative (flat one-row series: trend component 0, auxiliary -10, composite
-3), so the returned score is not non-negative for every auxiliary score. -/
theorem C2_counterexample :
    (calculate_threat_score (some dfFlat) (-10) cfgK).1 < 0 := by
  norm_num [calculate_threat_score, dfFlat, cfgK, DataFrame.empty, baselineAvg, currentAvg,
    baselineRows, currentRows, kwSums, rowKwSum, colIndex, meanOf, truncInt, scoreTriple]

/-- C2 (amended): for every series whose values are all non-negative and
every non-negative auxiliary score, the composite threat score returned by
`calculate_threat_score` is non-negative, in both trend branches (the clamp
`max 0` in the positive-baseline branch, and `currentAvg * 2 ≥ 0` in the
zero/negative-baseline branch since the current average of non-negative
values is non-negative). -/
theorem C2_score_nonneg (trends_df : Option DataFrame) (aux : ℚ) (cfg : DiseaseConfig)
    (hrows : ∀ df, trends_df = some df → ∀ r ∈ df.rows, ∀ x ∈ r, 0 ≤ x)
    (haux : 0 ≤ aux) :
    0 ≤ (calculate_threat_score trends_df aux cfg).1 := by
  rcases trends_df with _ | df
  · norm_num [calculate_threat_score]
  · rw [calculate_threat_score]
    by_cases hemp : df.empty = true
    · rw [hemp]
      norm_num
    · rw [Bool.not_eq_true] at hemp
      rw [hemp]
      simp only [Bool.false_eq_true, if_false]
      rcases hb : baselineAvg df cfg with _ | b <;>
        rcases hc : currentAvg df cfg with _ | c
      · norm_num
      · norm_num
      · norm_num
      · have hc0 : 0 ≤ c := currentAvg_nonneg df cfg (hrows df rfl) c hc
        dsimp only
        rw [scoreTriple_fst]
        apply truncInt_nonneg
        apply add_nonneg
        · apply mul_nonneg _ (by norm_num)
          split
          · exact le_max_left 0 _
          · exact mul_nonneg hc0 (by norm_num)
        · exact mul_nonneg haux (by norm_num)

/-- C2 witness: the flat non-negative series with auxiliary score 20. -/
theorem C2_witness : 0 ≤ (calculate_threat_score (some dfFlat) 20 cfgK).1 :=
  C2_score_nonneg (some dfFlat) 20 cfgK
    (by
      rintro df hdf r hr x hx
      injection hdf with hdf
      subst hdf
      simp [dfFlat] at hr
      subst hr
      simp at hx
      norm_num [hx])
    (by norm_num)

/-- C9: whenever `get_google_trends` returns a non-None series it also
returns a non-None chart payload whose datasets each hold one value per
label and are labelled by exactly the configured keywords present as columns
of the result, in configured order. Stated under the reachable-state
hypotheses that any cached entry for this key already satisfies the property
and that the provider result, like any pandas frame, has one index entry per
row. -/
theorem C9_series_implies_chart (cfg : DiseaseConfig) (geo : String) (now : ℚ)
    (cache : Cache) (provider : ProviderResult)
    (hcache : ∀ e, cache.lookup (cacheKey cfg geo) = some e →
      GoodPair cfg e.data e.chart_data)
    (hprov : ∀ df, provider = .ok df → df.index.length = df.rows.length) :
    GoodPair cfg (get_google_trends cfg geo now cache provider).data
      (get_google_trends cfg geo now cache provider).chart_data := by
  rw [get_google_trends]
  rcases he : cache.lookup (cacheKey cfg geo) with _ | e
  · exact liveFetch_goodPair cfg geo now cache provider hprov
  · dsimp only
    by_cases hfresh : now - e.timestamp < CACHE_DURATION
    · rw [if_pos hfresh]
      exact hcache e he
    · rw [if_neg hfresh]
      exact liveFetch_goodPair cfg geo now cache provider hprov

/-- C9 witness: a live fetch of a well-formed one-row frame on an empty
cache. -/
theorem C9_witness :
    GoodPair cfgK (get_google_trends cfgK "IN" 0 [] (.ok dfEx)).data
      (get_google_trends cfgK "IN" 0 [] (.ok dfEx)).chart_data :=
  C9_series_implies_chart cfgK "IN" 0 [] (.ok dfEx)
    (by intro e he; simp at he)
    (by
      intro df h
      injection h with h
      subst h
      rfl)

/-- C10: a non-empty series lacking a column for one configured keyword is
not scored keyword-by-keyword: the column selection fails, the failure is
caught, and the scorer returns exactly
`(0, "Low", "Error in calculation logic.")` — while the fetcher's chart
builder tolerates the missing keyword by skipping it (no dataset carries its
label). -/
theorem C10_missing_column (df : DataFrame) (aux : ℚ) (cfg : DiseaseConfig) (k : String)
    (hne : df.empty = false) (hk : k ∈ cfg.keywords)
    (hmiss : df.cols.contains k = false) :
    calculate_threat_score (some df) aux cfg =
      (0, "Low", "Error in calculation logic.") ∧
    ∀ ds ∈ (buildChart df cfg).datasets, ds.label ≠ k := by
  constructor
  · apply calc_error_of_avg_none df aux cfg hne
    refine Or.inr (currentAvg_none_of_missing df cfg k hk hmiss ?_)
    unfold DataFrame.empty at hne
    cases hr : df.rows.isEmpty
    · rfl
    · rw [hr] at hne
      simp at hne
  · intro ds hds hlabel
    obtain ⟨hmem, -⟩ := mem_buildChart_datasets df cfg ds hds
    rw [hlabel] at hmem
    rw [hmiss] at hmem
    exact absurd hmem (by simp)

/-- C10 witness: the scorer rejects a series whose only column matches no
configured keyword. -/
theorem C10_witness :
    calculate_threat_score (some dfBad) 7 cfgK =
      (0, "Low", "Error in calculation logic.") :=
  (C10_missing_column dfBad 7 cfgK "k" rfl (by decide) (by decide)).1
